import Mathlib

/-!
Verification development for the notepad repository: a browser text editor
that mirrors its content to a remote document store through a thin HTTP API.

The embedding below translates the client-side synchronization logic:

* the production API service (`safeFetch` retry loop, `ping`, `getContent`,
  `saveContent`, `addLog`) as pure functions over a transport oracle that
  gives the outcome of each network attempt;
* the service's `smartSync` debounce/guard logic as an event-driven state
  machine (`SmartState`, `smartStep`), with events for a `smartSync` call,
  a scheduled-timer firing, and the completion of an in-flight save;
* the `Notepad` component (`triggerAutoSave`, `saveContent` manual path,
  `loadContent`, `handleContentChange`) as an event-driven state machine
  (`NotepadState`, `notepadStep`).  A scheduled auto-save callback compares
  against the `lastSavedContent` value captured by its closure when it was
  scheduled, which the model records in the pending task.

JavaScript exceptions are modelled with `Except String`; an async function
that never rejects is one that always returns `Except.ok`.
-/

/-- The `ApiResponse` envelope returned by the remote gateway. -/
structure Envelope where
  success : Bool
  message : String
  documentId : Option String := none
  timestamp : Option String := none
  content : Option String := none
  characterCount : Option Nat := none
  lastModified : Option String := none
  error : Option String := none
  deriving DecidableEq, Repr

/-- The `DocumentContent` record built by `getContent` from a successful envelope. -/
structure DocumentContent where
  content : String
  characterCount : Nat
  lastModified : String
  documentId : String
  deriving DecidableEq, Repr

/-- Outcome of one `fetch` attempt inside `safeFetch`.
`fail` covers both a rejected `fetch` and a non-2xx response (`!response.ok`),
which the loop treats identically.  `ok parsed` is a 2xx response whose
`response.json()` yields `parsed` (`none` models a JSON parse throw). -/
inductive AttemptOutcome
  | fail
  | ok (parsed : Option Envelope)
  deriving DecidableEq, Repr

/-- Result of a `safeFetch` run: the returned response (`none` when the loop
throws after exhausting its attempts), the backoff delays actually awaited
(in milliseconds, in order), and the number of `fetch` attempts made. -/
structure SafeFetchOut where
  result : Option (Option Envelope)
  delays : List Nat
  attempts : Nat
  deriving DecidableEq, Repr

/-- The body of `safeFetch`'s retry loop.  `i` is the current 0-based attempt
index, the second argument the number of attempts still allowed
(`retries - i`).  On a failed attempt that is not the last one the loop waits
`Math.pow(2, i) * 1000` ms and continues; a failure on the last attempt
rethrows with no further wait. -/
def safeFetchGo (oracle : Nat → AttemptOutcome) : Nat → Nat → SafeFetchOut
  | i, 0 => ⟨none, [], i⟩
  | i, 1 =>
    match oracle i with
    | .ok r => ⟨some r, [], i + 1⟩
    | .fail => ⟨none, [], i + 1⟩
  | i, rem + 2 =>
    match oracle i with
    | .ok r => ⟨some r, [], i + 1⟩
    | .fail =>
      let out := safeFetchGo oracle (i + 1) (rem + 1)
      ⟨out.result, 2 ^ i * 1000 :: out.delays, out.attempts⟩

/-- `safeFetch(url, options, retries)`: run the retry loop from attempt 0. -/
def safeFetch (oracle : Nat → AttemptOutcome) (retries : Nat) : SafeFetchOut :=
  safeFetchGo oracle 0 retries

/-- The envelope built by `ping`'s catch block. -/
def connectionErrorEnvelope (e : String) : Envelope :=
  { success := false, message := "Connection error: " ++ e, error := some e }

/-- The envelope built by `saveContent`'s catch block. -/
def saveErrorEnvelope (e : String) : Envelope :=
  { success := false, message := "Save error: " ++ e, error := some e }

/-- The envelope built by `addLog`'s catch block. -/
def logErrorEnvelope (e : String) : Envelope :=
  { success := false, message := "Log error: " ++ e, error := some e }

/-- The `try` block of `ping`: a `safeFetch` with the default 3 retries, then
`response.json()`.  `Except.error` is a thrown JS exception. -/
def pingBody (oracle : Nat → AttemptOutcome) : Except String Envelope :=
  match (safeFetch oracle 3).result with
  | none => .error "Failed to fetch"
  | some none => .error "Unexpected token in JSON"
  | some (some data) => .ok data

/-- `ping()`: the try block with its catch, which converts any throw into a
`success := false` envelope. -/
def ping (oracle : Nat → AttemptOutcome) : Except String Envelope :=
  match pingBody oracle with
  | .ok data => .ok data
  | .error e => .ok (connectionErrorEnvelope e)

/-- The `try` block of `getContent`: on a successful envelope that carries a
`content` field, build the `DocumentContent` (with `|| 0` / `|| ''` defaults);
otherwise throw `data.message || 'Failed to get content'`. -/
def getContentBody (oracle : Nat → AttemptOutcome) : Except String DocumentContent :=
  match (safeFetch oracle 3).result with
  | none => .error "Failed to fetch"
  | some none => .error "Unexpected token in JSON"
  | some (some data) =>
    if data.success then
      match data.content with
      | some c =>
        .ok { content := c, characterCount := data.characterCount.getD 0,
              lastModified := data.lastModified.getD "", documentId := data.documentId.getD "" }
      | none => .error (if data.message = "" then "Failed to get content" else data.message)
    else .error (if data.message = "" then "Failed to get content" else data.message)

/-- `getContent()`: the try block with its catch, which returns `null`. -/
def getContent (oracle : Nat → AttemptOutcome) : Option DocumentContent :=
  match getContentBody oracle with
  | .ok doc => some doc
  | .error _ => none

/-- The `try` block of the service's `saveContent`: a form-encoded POST through
`safeFetch` (default 3 retries), then `response.json()`. -/
def serviceSaveContentBody (_content : String) (oracle : Nat → AttemptOutcome) :
    Except String Envelope :=
  match (safeFetch oracle 3).result with
  | none => .error "Failed to fetch"
  | some none => .error "Unexpected token in JSON"
  | some (some data) => .ok data

/-- The service's `saveContent(content)`: try block plus catch. -/
def serviceSaveContent (content : String) (oracle : Nat → AttemptOutcome) :
    Except String Envelope :=
  match serviceSaveContentBody content oracle with
  | .ok data => .ok data
  | .error e => .ok (saveErrorEnvelope e)

/-- Number of `fetch` attempts a single `saveContent` call performs. -/
def serviceSaveContentAttempts (oracle : Nat → AttemptOutcome) : Nat :=
  (safeFetch oracle 3).attempts

/-- The `try` block of `addLog`. -/
def addLogBody (_level _message : String) (oracle : Nat → AttemptOutcome) :
    Except String Envelope :=
  match (safeFetch oracle 3).result with
  | none => .error "Failed to fetch"
  | some none => .error "Unexpected token in JSON"
  | some (some data) => .ok data

/-- `addLog(level, message)`: try block plus catch. -/
def addLog (level message : String) (oracle : Nat → AttemptOutcome) :
    Except String Envelope :=
  match addLogBody level message oracle with
  | .ok data => .ok data
  | .error e => .ok (logErrorEnvelope e)

/-- The delay chosen by `smartSync` from its options and the time since the
last save started. -/
def smartDelay (immediate priorityHigh priorityLow : Bool)
    (contentLength timeSinceLastSave : Nat) : Nat :=
  if immediate then 0
  else if priorityHigh || contentLength < 100 then 500
  else if priorityLow || contentLength > 1000 then 3000
  else if timeSinceLastSave < 5000 then 1000
  else 2000

/-- State of the service's `smartSync` machinery: the single `saveTimeout`
slot (content and `immediate` flag of the scheduled task), the `isSaving`
flag, the contents of the save network calls currently in flight, and a log
of every save network call started so far. -/
structure SmartState where
  pending : Option (String × Bool)
  isSaving : Bool
  inFlight : List String
  callLog : List String
  deriving DecidableEq, Repr

/-- Events driving the `smartSync` machinery: a `smartSync(content, options)`
call, the scheduled timer callback running, and the awaited `saveContent`
of the in-flight save settling (its `finally` clearing `isSaving`). -/
inductive SmartEvent
  | call (content : String) (immediate : Bool)
  | fire
  | complete
  deriving DecidableEq, Repr

/-- One step of the `smartSync` machinery.

* `call`: `smartSync` first clears any pending timeout, then — if a save is
  in flight and the call is not immediate — returns `null` without
  scheduling anything; otherwise it schedules the new task.
* `fire`: the timer callback re-checks `isSaving`: if a save is still in
  flight it resolves `null`; otherwise it sets `isSaving` and starts the
  save network call.
* `complete`: the awaited save settles; `finally` resets `isSaving`. -/
def smartStep (s : SmartState) : SmartEvent → SmartState
  | .call content immediate =>
    let s1 : SmartState := { s with pending := none }
    if s1.isSaving && !immediate then s1
    else { s1 with pending := some (content, immediate) }
  | .fire =>
    match s.pending with
    | none => s
    | some t =>
      let s1 : SmartState := { s with pending := none }
      if s1.isSaving then s1
      else { s1 with isSaving := true, inFlight := s1.inFlight ++ [t.1],
                     callLog := s1.callLog ++ [t.1] }
  | .complete =>
    match s.inFlight with
    | [] => s
    | _ :: rest => { s with isSaving := false, inFlight := rest }

/-- Run a list of `smartSync` events from a state. -/
def smartRun (s : SmartState) : List SmartEvent → SmartState
  | [] => s
  | e :: es => smartRun (smartStep s e) es

/-- Initial service state: no pending timeout, not saving, nothing in flight. -/
def smartInit : SmartState := ⟨none, false, [], []⟩

/-- Invariant of the `smartSync` machinery: at most one save in flight, and
`isSaving` tracks exactly whether one is. -/
def SmartInv (s : SmartState) : Prop :=
  s.inFlight.length ≤ 1 ∧ (s.isSaving = true ↔ s.inFlight ≠ [])

/-- The connection status values of the `Notepad` component. -/
inductive ConnectionStatus
  | connected
  | disconnected
  | connecting
  | saving
  | error
  deriving DecidableEq, Repr

/-- A scheduled auto-save task: the content passed to `triggerAutoSave`, the
`lastSavedContent` value captured by the timer callback's closure at
scheduling time, and the computed debounce delay in milliseconds. -/
structure AutoTask where
  content : String
  capturedLastSaved : String
  delay : Nat
  deriving DecidableEq, Repr

/-- State of the `Notepad` component: the textarea content, the last
successfully saved content, the connection status, the single
`autoSaveTimeoutRef` slot, the contents of the save network calls currently
in flight (auto or manual), and a log of every save network call started. -/
structure NotepadState where
  content : String
  lastSavedContent : String
  connectionStatus : ConnectionStatus
  autoSaveTimeout : Option AutoTask
  inFlight : List String
  callLog : List String
  deriving DecidableEq, Repr

/-- `hasUnsavedChanges`, kept equal to `content !== lastSavedContent` by the
component's effect hook. -/
def hasUnsavedChanges (s : NotepadState) : Bool :=
  s.content != s.lastSavedContent

/-- The delay computed by `triggerAutoSave`:
`immediate ? 100 : (newContent.length < 500 ? 1000 : 2000)`. -/
def autoSaveDelay (immediate : Bool) (newContent : String) : Nat :=
  if immediate then 100 else if newContent.length < 500 then 1000 else 2000

/-- `triggerAutoSave(newContent, immediate)`: clear the previous timeout and
schedule a new task; the callback captures the current `lastSavedContent`. -/
def triggerAutoSave (s : NotepadState) (newContent : String) (immediate : Bool) :
    NotepadState :=
  { s with autoSaveTimeout := some ⟨newContent, s.lastSavedContent, autoSaveDelay immediate newContent⟩ }

/-- `handleContentChange` classifies an edit as small (immediate-class) when
`Math.abs(newContent.length - content.length) < 10`. -/
def isSmallChange (oldContent newContent : String) : Bool :=
  ((newContent.length : Int) - (oldContent.length : Int)).natAbs < 10

/-- Events driving the `Notepad` component:

* `edit c`: `handleContentChange` with new textarea value `c`;
* `fireAutoSave`: the scheduled auto-save timer callback runs;
* `manualSave`: the manual save action (Ctrl+S / Save button);
* `complete idx success`: the `idx`-th in-flight save network call settles. -/
inductive NotepadEvent
  | edit (newContent : String)
  | fireAutoSave
  | manualSave
  | complete (idx : Nat) (success : Bool)
  deriving DecidableEq, Repr

/-- One step of the `Notepad` component.

* `edit`: set `content` and call `triggerAutoSave` with the small-change
  classification computed against the previous content.
* `fireAutoSave`: the timer callback saves only when its content differs
  from the captured `lastSavedContent` and is non-empty.
* `manualSave`: returns early when there are no unsaved changes; otherwise
  starts a save network call with the current content.
* `complete`: on success the completion callback stores the saved content
  into `lastSavedContent` and sets status `connected`; on failure (rejected
  promise or `success: false` envelope) it sets status `error`. -/
def notepadStep (s : NotepadState) : NotepadEvent → NotepadState
  | .edit newContent =>
    triggerAutoSave { s with content := newContent } newContent
      (isSmallChange s.content newContent)
  | .fireAutoSave =>
    match s.autoSaveTimeout with
    | none => s
    | some t =>
      let s1 : NotepadState := { s with autoSaveTimeout := none }
      if t.content ≠ t.capturedLastSaved ∧ 0 < t.content.length then
        { s1 with connectionStatus := .saving, inFlight := s1.inFlight ++ [t.content],
                  callLog := s1.callLog ++ [t.content] }
      else s1
  | .manualSave =>
    if hasUnsavedChanges s then
      { s with connectionStatus := .saving, inFlight := s.inFlight ++ [s.content],
               callLog := s.callLog ++ [s.content] }
    else s
  | .complete idx success =>
    match s.inFlight[idx]? with
    | none => s
    | some c =>
      let s1 : NotepadState := { s with inFlight := s.inFlight.eraseIdx idx }
      if success then { s1 with lastSavedContent := c, connectionStatus := .connected }
      else { s1 with connectionStatus := .error }

/-- Run a list of `Notepad` events from a state. -/
def notepadRun (s : NotepadState) : List NotepadEvent → NotepadState
  | [] => s
  | e :: es => notepadRun (notepadStep s e) es

/-- Initial component state (`useState` initial values). -/
def notepadInit : NotepadState := ⟨"", "", .disconnected, none, [], []⟩

/-- The fallback document `loadContent` writes into the editor on failure. -/
def fallbackDocument : String :=
  "# Error Loading Document\n\nFailed to connect to Google Docs API.\nPlease check your connection and try again.\n\n📱 Mobile users: Ensure you have a stable internet connection."

/-- `loadContent()`: set status `connecting`; `ping`, and on a failed ping
throw into the catch (status `error`, fallback document, `getContent` never
called).  On a successful ping, `getContent`; a non-null result seeds
`content`, `lastSavedContent` and status `connected`, a null result throws
into the same catch.  Returns the new state and whether `getContent`
(the fetch) was called. -/
def loadContent (pingSuccess : Bool) (fetched : Option DocumentContent)
    (s : NotepadState) : NotepadState × Bool :=
  let s0 : NotepadState := { s with connectionStatus := .connecting }
  if pingSuccess then
    match fetched with
    | some doc =>
      ({ s0 with content := doc.content, lastSavedContent := doc.content,
                 connectionStatus := .connected }, true)
    | none =>
      ({ s0 with connectionStatus := .error, content := fallbackDocument }, true)
  else
    ({ s0 with connectionStatus := .error, content := fallbackDocument }, false)

/-- A transport where every attempt fails. -/
def allFailOracle : Nat → AttemptOutcome := fun _ => .fail

/-- A transport where the first attempt fails and the second succeeds with a
successful envelope. -/
def failThenOkOracle : Nat → AttemptOutcome := fun i =>
  if i = 0 then .fail
  else .ok (some { success := true, message := "Content replaced successfully" })

/-- A non-empty JavaScript string has positive `length`. -/
lemma length_pos_of_ne_empty {s : String} (h : s ≠ "") : 0 < s.length := by
  rcases s with ⟨l⟩
  cases l with
  | nil => exact absurd (by decide) h
  | cons a t => simp [String.length]

/-- The initial `smartSync` state satisfies the mutual-exclusion invariant. -/
lemma smartInit_inv : SmartInv smartInit := ⟨by decide, by decide⟩

/-- Every `smartSync` event preserves the mutual-exclusion invariant. -/
lemma smartStep_inv {s : SmartState} (h : SmartInv s) (e : SmartEvent) :
    SmartInv (smartStep s e) := by
  obtain ⟨p, sv, fl, log⟩ := s
  obtain ⟨h1, h2⟩ := h
  cases e with
  | call content immediate =>
    cases sv <;> cases immediate <;> simp_all [smartStep, SmartInv]
  | fire =>
    cases p with
    | none => exact ⟨h1, h2⟩
    | some t =>
      cases sv with
      | true => exact ⟨h1, h2⟩
      | false =>
        have hfl : fl = [] := by
          by_contra hne
          have hcontra := h2.mpr hne
          simp at hcontra
        subst hfl
        simp [smartStep, SmartInv]
  | complete =>
    cases fl with
    | nil => exact ⟨h1, h2⟩
    | cons x rest =>
      cases rest with
      | nil => simp [smartStep, SmartInv]
      | cons y r2 =>
        exfalso
        simp at h1

/-- Runs from an invariant state stay in the invariant. -/
lemma smartRun_inv {s : SmartState} (h : SmartInv s) (events : List SmartEvent) :
    SmartInv (smartRun s events) := by
  induction events generalizing s with
  | nil => exact h
  | cons e es ih => exact ih (smartStep_inv h e)

/-- Closed form of a three-attempt `safeFetch` run, by cases on the transport
outcomes: the only backoff waits that can occur are 1000 ms (after failed
attempt 0) and 2000 ms (after failed attempt 1); a failure on attempt 2
rethrows without waiting. -/
lemma safeFetch_three (oracle : Nat → AttemptOutcome) :
    safeFetch oracle 3 =
      match oracle 0, oracle 1, oracle 2 with
      | .ok r, _, _ => ⟨some r, [], 1⟩
      | .fail, .ok r, _ => ⟨some r, [1000], 2⟩
      | .fail, .fail, .ok r => ⟨some r, [1000, 2000], 3⟩
      | .fail, .fail, .fail => ⟨none, [1000, 2000], 3⟩ := by
  rcases h0 : oracle 0 with _ | r0 <;>
    rcases h1 : oracle 1 with _ | r1 <;>
      rcases h2 : oracle 2 with _ | r2 <;>
        simp [safeFetch, safeFetchGo, h0, h1, h2]

/-- A three-attempt `safeFetch` run makes at most three `fetch` attempts. -/
lemma safeFetch_attempts_le_three (oracle : Nat → AttemptOutcome) :
    (safeFetch oracle 3).attempts ≤ 3 := by
  rw [safeFetch_three oracle]
  rcases oracle 0 with _ | r0 <;> rcases oracle 1 with _ | r1 <;>
    rcases oracle 2 with _ | r2 <;> simp

/-- Claim C1 counterexample: the component's own save paths have no in-flight
guard.  From the initial state: edit "a"; manual save (one save network call
now in flight); edit "ab" (a debounced save requested while the save is in
flight — it is scheduled, not dropped); the debounce timer fires.  Two save
network calls are now in flight simultaneously, so the claim's "at most one
save network call is in flight at any time, a debounced save arriving during
an in-flight save is dropped" is false for the program. -/
theorem c1_counterexample :
    (notepadRun notepadInit [.edit "a", .manualSave, .edit "ab", .fireAutoSave]).inFlight = ["a", "ab"] ∧
    ¬ (notepadRun notepadInit [.edit "a", .manualSave, .edit "ab", .fireAutoSave]).inFlight.length ≤ 1 := by
  decide

/-- Claim C1 (amended): the mutual exclusion exists only inside the service's
`smartSync` machinery (which the Notepad component does not use): (1) in
every `smartSync` run at most one save network call is in flight; (2) a
non-immediate `smartSync` call arriving while a save is in flight is dropped
entirely — its only effect is to clear the pending timeout slot, nothing is
queued; (3) an immediate call bypasses this guard and is scheduled even while
a save is in flight; (4) such an immediate call may proceed: once the
in-flight save completes and the timer fires, its save network call starts.
The component's own `triggerAutoSave` / manual-save paths perform no such
exclusion (see the counterexample). -/
theorem c1_amended :
    (∀ events, (smartRun smartInit events).inFlight.length ≤ 1) ∧
    (∀ s content, s.isSaving = true →
      smartStep s (.call content false) = { s with pending := none }) ∧
    (∀ s content, smartStep s (.call content true) = { s with pending := some (content, true) }) ∧
    (∀ s content x, s.isSaving = true → s.inFlight = [x] →
      (smartRun s [.call content true, .complete, .fire]).callLog = s.callLog ++ [content]) := by
  refine ⟨?_, ?_, ?_, ?_⟩
  · intro events
    exact (smartRun_inv smartInit_inv events).1
  · intro s content h
    simp [smartStep, h]
  · intro s content
    simp [smartStep]
  · intro s content x h hfl
    obtain ⟨p, sv, fl, log⟩ := s
    simp only at h hfl
    subst h
    subst hfl
    simp [smartRun, smartStep]

/-- Claim C1 witness: the amended statement applied at a concrete run and a
concrete in-flight state. -/
theorem c1_witness :
    (smartRun smartInit [.call "a" false, .fire]).inFlight.length ≤ 1 ∧
    smartStep (⟨none, true, ["a"], ["a"]⟩ : SmartState) (.call "b" false) =
      { (⟨none, true, ["a"], ["a"]⟩ : SmartState) with pending := none } ∧
    smartStep (⟨none, true, ["a"], ["a"]⟩ : SmartState) (.call "b" true) =
      { (⟨none, true, ["a"], ["a"]⟩ : SmartState) with pending := some ("b", true) } ∧
    (smartRun (⟨none, true, ["a"], ["a"]⟩ : SmartState) [.call "b" true, .complete, .fire]).callLog =
      ["a"] ++ ["b"] :=
  ⟨c1_amended.1 [.call "a" false, .fire],
   c1_amended.2.1 ⟨none, true, ["a"], ["a"]⟩ "b" rfl,
   c1_amended.2.2.1 ⟨none, true, ["a"], ["a"]⟩ "b",
   c1_amended.2.2.2 ⟨none, true, ["a"], ["a"]⟩ "b" "a" rfl rfl⟩

/-- Claim C2 counterexample: schedule "a", then "" before the first delay has
elapsed, then let the timer fire.  The code makes zero network save calls
(the empty content is suppressed), not exactly one with content `c2 = ""`. -/
theorem c2_counterexample :
    (notepadRun notepadInit [.edit "a", .edit "", .fireAutoSave]).callLog = [] ∧
    ¬ (notepadRun notepadInit [.edit "a", .edit "", .fireAutoSave]).callLog.length = 1 := by
  decide

/-- Claim C2 (amended): a second debounced call before the first delay has
elapsed replaces (cancels) the first pending scheduled save, and — provided
`c2` differs from the `lastSavedContent` captured at scheduling time and is
non-empty — firing the timer results in exactly one network save call, with
content `c2`, and leaves nothing pending. -/
theorem c2_amended (s : NotepadState) (c c2 : String)
    (h1 : c2 ≠ s.lastSavedContent) (h2 : c2 ≠ "") :
    (notepadRun s [.edit c]).autoSaveTimeout =
      some ⟨c, s.lastSavedContent, autoSaveDelay (isSmallChange s.content c) c⟩ ∧
    (notepadRun s [.edit c, .edit c2]).autoSaveTimeout =
      some ⟨c2, s.lastSavedContent, autoSaveDelay (isSmallChange c c2) c2⟩ ∧
    (notepadRun s [.edit c, .edit c2, .fireAutoSave]).callLog = s.callLog ++ [c2] ∧
    (notepadRun s [.edit c, .edit c2, .fireAutoSave]).autoSaveTimeout = none := by
  have hpos : 0 < c2.length := length_pos_of_ne_empty h2
  refine ⟨rfl, rfl, ?_, ?_⟩ <;>
    simp [notepadRun, notepadStep, triggerAutoSave, h1, hpos]

/-- Claim C2 witness: the amended statement at `c = "a"`, `c2 = "b"` from the
initial state. -/
theorem c2_witness :
    (notepadRun notepadInit [.edit "a"]).autoSaveTimeout =
      some ⟨"a", notepadInit.lastSavedContent, autoSaveDelay (isSmallChange notepadInit.content "a") "a"⟩ ∧
    (notepadRun notepadInit [.edit "a", .edit "b"]).autoSaveTimeout =
      some ⟨"b", notepadInit.lastSavedContent, autoSaveDelay (isSmallChange "a" "b") "b"⟩ ∧
    (notepadRun notepadInit [.edit "a", .edit "b", .fireAutoSave]).callLog =
      notepadInit.callLog ++ ["b"] ∧
    (notepadRun notepadInit [.edit "a", .edit "b", .fireAutoSave]).autoSaveTimeout = none :=
  c2_amended notepadInit "a" "b" (by decide) (by decide)

/-- Claim C3 counterexample: the debounced callback compares against the
`lastSavedContent` captured when it was scheduled, not the current one.
From the initial state: edit "b" (schedules an auto-save capturing
`lastSavedContent = ""`); manual save of "b"; its completion sets
`lastSavedContent := "b"`.  The still-pending auto-save timer then fires and
— since "b" differs from its captured "" — starts a save network call with
content "b", which equals the current `lastSavedContent`, via the debounced
(non-manual) path. -/
theorem c3_counterexample :
    (notepadRun notepadInit [.edit "b", .manualSave, .complete 0 true]).lastSavedContent = "b" ∧
    (notepadRun notepadInit [.edit "b", .manualSave, .complete 0 true]).autoSaveTimeout =
      some ⟨"b", "", 100⟩ ∧
    (notepadRun notepadInit [.edit "b", .manualSave, .complete 0 true, .fireAutoSave]).callLog =
      ["b", "b"] := by
  decide

/-- Claim C3 (amended): the debounced suppression is relative to the
`lastSavedContent` captured at scheduling time: a fired scheduled save is
suppressed (no network call, the state change is only clearing the timeout
slot) exactly when its content equals that captured value or is empty, and
otherwise starts a network save call with its content.  Equality with the
*current* `lastSavedContent` is not checked, so when a manual save lands
between scheduling and firing the debounced path can invoke save with
content equal to the current `lastSavedContent` (see the counterexample). -/
theorem c3_amended (s : NotepadState) (t : AutoTask) (hp : s.autoSaveTimeout = some t) :
    ((t.content = t.capturedLastSaved ∨ t.content = "") →
      notepadStep s .fireAutoSave = { s with autoSaveTimeout := none }) ∧
    (t.content ≠ t.capturedLastSaved → t.content ≠ "" →
      (notepadStep s .fireAutoSave).callLog = s.callLog ++ [t.content]) ∧
    (∀ c, (notepadStep s (.edit c)).autoSaveTimeout =
      some ⟨c, s.lastSavedContent, autoSaveDelay (isSmallChange s.content c) c⟩) := by
  refine ⟨?_, ?_, fun c => rfl⟩
  · intro h
    rcases h with h | h
    · simp [notepadStep, hp, h]
    · simp [notepadStep, hp, h]
  · intro hne hemp
    simp [notepadStep, hp, hne, length_pos_of_ne_empty hemp]

/-- Claim C3 witness: the amended statement at two concrete states, one with
an unchanged-content task (suppressed) and one with a changed-content task
(fires a save). -/
theorem c3_witness :
    notepadStep (⟨"a", "a", .connected, some ⟨"a", "a", 100⟩, [], []⟩ : NotepadState) .fireAutoSave =
      { (⟨"a", "a", .connected, some ⟨"a", "a", 100⟩, [], []⟩ : NotepadState) with autoSaveTimeout := none } ∧
    (notepadStep (⟨"b", "", .connected, some ⟨"b", "", 100⟩, [], []⟩ : NotepadState) .fireAutoSave).callLog =
      ([] : List String) ++ ["b"] ∧
    (notepadStep (⟨"b", "", .connected, some ⟨"b", "", 100⟩, [], []⟩ : NotepadState) (.edit "c")).autoSaveTimeout =
      some ⟨"c", "", autoSaveDelay (isSmallChange "b" "c") "c"⟩ :=
  ⟨(c3_amended ⟨"a", "a", .connected, some ⟨"a", "a", 100⟩, [], []⟩ ⟨"a", "a", 100⟩ rfl).1 (Or.inl rfl),
   (c3_amended ⟨"b", "", .connected, some ⟨"b", "", 100⟩, [], []⟩ ⟨"b", "", 100⟩ rfl).2.1
     (by decide) (by decide),
   (c3_amended ⟨"b", "", .connected, some ⟨"b", "", 100⟩, [], []⟩ ⟨"b", "", 100⟩ rfl).2.2 "c"⟩

/-- Claim C4 counterexample: with all three attempts failing, the backoff
waits actually performed are 1000 ms and 2000 ms only — the failure of the
third attempt rethrows immediately, so no 4000 ms wait ever occurs and the
delay list is not 1s, 2s, 4s. -/
theorem c4_counterexample :
    (safeFetch allFailOracle 3).delays = [1000, 2000] ∧
    (safeFetch allFailOracle 3).delays ≠ [1000, 2000, 4000] ∧
    4000 ∉ (safeFetch allFailOracle 3).delays := by
  decide

/-- Claim C4 (amended): on the ping/fetch path a failing transport call is
retried up to 3 attempts with exponential backoff waits of `2^i * 1000` ms
after failed attempt `i` — i.e. 1s then 2s; a 4s wait never occurs — and a
hard connection error is surfaced only after all 3 attempts fail. -/
theorem c4_amended (oracle : Nat → AttemptOutcome) :
    (safeFetch oracle 3).attempts ≤ 3 ∧
    ((safeFetch oracle 3).result = none →
      (safeFetch oracle 3).attempts = 3 ∧ (∀ i, i < 3 → oracle i = .fail) ∧
      (safeFetch oracle 3).delays = [1000, 2000]) ∧
    4000 ∉ (safeFetch oracle 3).delays := by
  refine ⟨safeFetch_attempts_le_three oracle, ?_, ?_⟩ <;>
    · rw [safeFetch_three oracle]
      rcases h0 : oracle 0 with _ | r0 <;>
        rcases h1 : oracle 1 with _ | r1 <;>
          rcases h2 : oracle 2 with _ | r2 <;>
            simp_all <;>
              intro i hi <;> interval_cases i <;> assumption

/-- Claim C4 witness: the amended statement at the all-failing transport. -/
theorem c4_witness :
    (safeFetch allFailOracle 3).attempts ≤ 3 ∧
    ((safeFetch allFailOracle 3).attempts = 3 ∧ (∀ i, i < 3 → allFailOracle i = .fail) ∧
      (safeFetch allFailOracle 3).delays = [1000, 2000]) ∧
    4000 ∉ (safeFetch allFailOracle 3).delays :=
  ⟨(c4_amended allFailOracle).1, (c4_amended allFailOracle).2.1 (by decide),
   (c4_amended allFailOracle).2.2⟩

/-- Claim C5 counterexample: the service's `saveContent` goes through
`safeFetch` with the default 3 retries, so a save whose first transport
attempt fails and whose second succeeds performs two network attempts —
refuting "a save operation performs at most one network attempt". -/
theorem c5_counterexample :
    serviceSaveContentAttempts failThenOkOracle = 2 ∧
    ¬ serviceSaveContentAttempts failThenOkOracle ≤ 1 := by
  decide

/-- Claim C5 (amended): a single `saveContent` call performs up to 3 transport
attempts (the same `safeFetch` retry policy as ping/fetch), but beyond that
one call there is no automatic retry: a failed save completion only moves the
session to the `error` status, and a new save network call starts only at a
debounced timer firing or an explicit manual save — never from an edit alone
or from a completion. -/
theorem c5_amended :
    (∀ oracle, serviceSaveContentAttempts oracle ≤ 3) ∧
    (∀ s idx, (s.inFlight[idx]?).isSome = true →
      (notepadStep s (.complete idx false)).connectionStatus = .error) ∧
    (∀ s e, (notepadStep s e).callLog ≠ s.callLog →
      e = .fireAutoSave ∨ e = .manualSave) := by
  refine ⟨fun oracle => safeFetch_attempts_le_three oracle, ?_, ?_⟩
  · intro s idx h
    rcases hg : s.inFlight[idx]? with _ | c
    · rw [hg] at h
      simp at h
    · simp [notepadStep, hg]
  · intro s e h
    cases e with
    | edit c => exact absurd rfl h
    | fireAutoSave => exact Or.inl rfl
    | manualSave => exact Or.inr rfl
    | complete idx success =>
      exfalso
      apply h
      rcases hg : s.inFlight[idx]? with _ | c
      · simp [notepadStep, hg]
      · cases success <;> simp [notepadStep, hg]

/-- Claim C5 witness: the amended statement at the all-failing transport, a
concrete failed completion, and a concrete manual-save step that starts a
call. -/
theorem c5_witness :
    serviceSaveContentAttempts allFailOracle ≤ 3 ∧
    (notepadStep (⟨"a", "", .saving, none, ["a"], ["a"]⟩ : NotepadState) (.complete 0 false)).connectionStatus = .error ∧
    (NotepadEvent.manualSave = .fireAutoSave ∨ NotepadEvent.manualSave = .manualSave) :=
  ⟨c5_amended.1 allFailOracle,
   c5_amended.2.1 ⟨"a", "", .saving, none, ["a"], ["a"]⟩ 0 (by decide),
   c5_amended.2.2 ⟨"a", "", .disconnected, none, [], []⟩ .manualSave (by decide)⟩

/-- Claim C6 counterexample: a failing load does not leave the edit buffer
intact.  With "x" in the buffer (e.g. typed before pressing the refresh
button), a `loadContent` whose ping fails overwrites the buffer with the
fallback error document. -/
theorem c6_counterexample :
    (loadContent false none (⟨"x", "", .connected, none, [], []⟩ : NotepadState)).1.content =
      fallbackDocument ∧
    fallbackDocument ≠ "x" :=
  ⟨rfl, by decide⟩

/-- Claim C6 (amended): a failing *save* changes only the status indicator —
the edit buffer, the last-saved content, the pending auto-save slot and the
call log are all unchanged — but a failing *load* (ping or fetch failure)
sets the `error` status and additionally replaces the edit buffer with the
fallback error document. -/
theorem c6_amended :
    (∀ s idx,
      (notepadStep s (.complete idx false)).content = s.content ∧
      (notepadStep s (.complete idx false)).lastSavedContent = s.lastSavedContent ∧
      (notepadStep s (.complete idx false)).autoSaveTimeout = s.autoSaveTimeout ∧
      (notepadStep s (.complete idx false)).callLog = s.callLog) ∧
    (∀ s fetched,
      (loadContent false fetched s).1.content = fallbackDocument ∧
      (loadContent false fetched s).1.connectionStatus = .error) := by
  refine ⟨?_, fun s fetched => ⟨rfl, rfl⟩⟩
  intro s idx
  rcases hg : s.inFlight[idx]? with _ | c <;> simp [notepadStep, hg]

/-- Claim C7: on load, a failed ping yields the `error` state with the
fallback document and `getContent` (fetch) is never called; on a successful
ping, `getContent` is called and a non-null result seeds both the editor
content and the last-saved content (and the `connected` status).  Moreover a
`ping` over a transport whose attempts all fail (retry exhaustion) returns a
`success := false` envelope, which is exactly the failed-ping case. -/
theorem c7_load_gates_fetch :
    (∀ s fetched, loadContent false fetched s =
      ({ s with connectionStatus := .error, content := fallbackDocument }, false)) ∧
    (∀ s doc, loadContent true (some doc) s =
      ({ s with content := doc.content, lastSavedContent := doc.content,
                connectionStatus := .connected }, true)) ∧
    ping allFailOracle = .ok (connectionErrorEnvelope "Failed to fetch") ∧
    (connectionErrorEnvelope "Failed to fetch").success = false :=
  ⟨fun _ _ => rfl, fun _ _ => rfl, rfl, rfl⟩

/-- Claim C8: a successful fetch seeds local state so that the current
content equals the last-saved content, and a manual save in that state is a
complete no-op — the state is unchanged and no save network call starts. -/
theorem c8_round_trip :
    ∀ s doc,
      (loadContent true (some doc) s).1.content =
        (loadContent true (some doc) s).1.lastSavedContent ∧
      notepadStep (loadContent true (some doc) s).1 .manualSave =
        (loadContent true (some doc) s).1 ∧
      (notepadStep (loadContent true (some doc) s).1 .manualSave).callLog =
        (loadContent true (some doc) s).1.callLog := by
  intro s doc
  have hno : notepadStep (loadContent true (some doc) s).1 .manualSave =
      (loadContent true (some doc) s).1 := by
    simp [loadContent, notepadStep, hasUnsavedChanges]
  exact ⟨rfl, hno, by rw [hno]⟩

/-- Claim C9 counterexample: in the service's `smartSync`, a new non-immediate
request arriving while a save is in flight is dropped with *nothing*
scheduled: after `smartSync("a")` fires and its save is in flight,
`smartSync("b")` leaves no pending task (it even clears the slot), the
in-flight save of "a" is untouched, and after that save completes and any
timer fires the call log still contains only the save of "a" — no follow-up
save for "b" is ever scheduled or performed. -/
theorem c9_counterexample :
    smartRun smartInit [.call "a" false, .fire, .call "b" false] =
      (⟨none, true, ["a"], ["a"]⟩ : SmartState) ∧
    (smartRun smartInit [.call "a" false, .fire, .call "b" false, .complete, .fire]).callLog =
      ["a"] := by
  decide

/-- Claim C9 (amended): a new edit arriving while a save is in flight never
cancels that save, in either path.  On the service's `smartSync` path the
non-immediate request is dropped entirely — the in-flight list and call log
are unchanged and the pending slot is cleared, so no follow-up save is
scheduled.  On the component's `triggerAutoSave` path a follow-up save *is*
scheduled (the in-flight list is untouched and the timeout slot holds the
new edit), but it fires after its own debounce delay, not gated on the
in-flight save's completion. -/
theorem c9_amended :
    (∀ s content, s.isSaving = true →
      (smartStep s (.call content false)).inFlight = s.inFlight ∧
      (smartStep s (.call content false)).pending = none ∧
      (smartStep s (.call content false)).callLog = s.callLog) ∧
    (∀ s c,
      (notepadStep s (.edit c)).inFlight = s.inFlight ∧
      (notepadStep s (.edit c)).autoSaveTimeout =
        some ⟨c, s.lastSavedContent, autoSaveDelay (isSmallChange s.content c) c⟩) := by
  refine ⟨?_, fun s c => ⟨rfl, rfl⟩⟩
  intro s content h
  simp [smartStep, h]

/-- Claim C9 witness: the amended statement at a concrete in-flight service
state and a concrete component state. -/
theorem c9_witness :
    ((smartStep (⟨none, true, ["a"], ["a"]⟩ : SmartState) (.call "b" false)).inFlight = ["a"] ∧
      (smartStep (⟨none, true, ["a"], ["a"]⟩ : SmartState) (.call "b" false)).pending = none ∧
      (smartStep (⟨none, true, ["a"], ["a"]⟩ : SmartState) (.call "b" false)).callLog = ["a"]) ∧
    ((notepadStep (⟨"a", "", .saving, none, ["a"], ["a"]⟩ : NotepadState) (.edit "ab")).inFlight = ["a"] ∧
      (notepadStep (⟨"a", "", .saving, none, ["a"], ["a"]⟩ : NotepadState) (.edit "ab")).autoSaveTimeout =
        some ⟨"ab", "", autoSaveDelay (isSmallChange "a" "ab") "ab"⟩) :=
  ⟨c9_amended.1 ⟨none, true, ["a"], ["a"]⟩ "b" rfl,
   c9_amended.2 ⟨"a", "", .saving, none, ["a"], ["a"]⟩ "ab"⟩

/-- Claim C10: the four public service methods are total with respect to
failures.  `ping`, `saveContent` and `addLog` always resolve (never reject):
whenever their try block throws, the returned envelope has
`success := false` and a set `error` field; `getContent` resolves `null`
whenever its try block throws (transport error after retries, parse error,
unsuccessful envelope, or missing content field). -/
theorem c10_api_total :
    (∀ oracle, (∃ env, ping oracle = .ok env) ∧
      (∀ e, pingBody oracle = .error e →
        ping oracle = .ok (connectionErrorEnvelope e) ∧
        (connectionErrorEnvelope e).success = false ∧
        (connectionErrorEnvelope e).error = some e)) ∧
    (∀ content oracle, (∃ env, serviceSaveContent content oracle = .ok env) ∧
      (∀ e, serviceSaveContentBody content oracle = .error e →
        serviceSaveContent content oracle = .ok (saveErrorEnvelope e) ∧
        (saveErrorEnvelope e).success = false ∧
        (saveErrorEnvelope e).error = some e)) ∧
    (∀ level message oracle, (∃ env, addLog level message oracle = .ok env) ∧
      (∀ e, addLogBody level message oracle = .error e →
        addLog level message oracle = .ok (logErrorEnvelope e) ∧
        (logErrorEnvelope e).success = false ∧
        (logErrorEnvelope e).error = some e)) ∧
    (∀ oracle e, getContentBody oracle = .error e → getContent oracle = none) := by
  refine ⟨?_, ?_, ?_, ?_⟩
  · intro oracle
    constructor
    · rcases h : pingBody oracle with e | d
      · exact ⟨connectionErrorEnvelope e, by simp [ping, h]⟩
      · exact ⟨d, by simp [ping, h]⟩
    · intro e he
      exact ⟨by simp [ping, he], rfl, rfl⟩
  · intro content oracle
    constructor
    · rcases h : serviceSaveContentBody content oracle with e | d
      · exact ⟨saveErrorEnvelope e, by simp [serviceSaveContent, h]⟩
      · exact ⟨d, by simp [serviceSaveContent, h]⟩
    · intro e he
      exact ⟨by simp [serviceSaveContent, he], rfl, rfl⟩
  · intro level message oracle
    constructor
    · rcases h : addLogBody level message oracle with e | d
      · exact ⟨logErrorEnvelope e, by simp [addLog, h]⟩
      · exact ⟨d, by simp [addLog, h]⟩
    · intro e he
      exact ⟨by simp [addLog, he], rfl, rfl⟩
  · intro oracle e he
    simp [getContent, he]

/-- Claim C10 witness: the totality statement at the all-failing transport,
where every try block throws "Failed to fetch". -/
theorem c10_witness :
    ping allFailOracle = .ok (connectionErrorEnvelope "Failed to fetch") ∧
    serviceSaveContent "x" allFailOracle = .ok (saveErrorEnvelope "Failed to fetch") ∧
    addLog "INFO" "loaded" allFailOracle = .ok (logErrorEnvelope "Failed to fetch") ∧
    getContent allFailOracle = none :=
  ⟨((c10_api_total.1 allFailOracle).2 "Failed to fetch" rfl).1,
   ((c10_api_total.2.1 "x" allFailOracle).2 "Failed to fetch" rfl).1,
   ((c10_api_total.2.2.1 "INFO" "loaded" allFailOracle).2 "Failed to fetch" rfl).1,
   c10_api_total.2.2.2 allFailOracle "Failed to fetch" rfl⟩
